import Mathlib

/-!
Shallow embedding of the PCTA permit-availability scraper (src/main.rs).

The program polls a permit web page, extracts an embedded JSON blob,
parses a calendar of (start_date, num) string pairs, filters it against a
fixed date range and capacity limit, and classifies the outcome into a
chat notification payload (logs / alerts / errors topic).

External collaborators (HTTP transport, the scraper/regex HTML library,
serde_json, the keybase and mullvad processes) are modelled as function
parameters or as the abstract inputs of the step functions, exactly as the
specification itself treats them.  Machine integers (u64) are Nat with
explicit wrap-around where overflow matters.  A Rust panic is modelled as
the `none` case of an `Option`-valued step function, distinct from the
`Except.error` case that models `anyhow::Result::Err`.
-/

namespace PCTA

/-! ### Constants (src/main.rs lines 16-28) -/

def PERIOD_MIN : Nat := 24
def PERIOD_MAX : Nat := 40
def LIMIT : Nat := 50
def RANGE_YEAR : Nat := 2023
def RANGE_MONTH_START : Nat := 4
def RANGE_DAY_START : Nat := 1
def RANGE_MONTH_END : Nat := 5
def RANGE_DAY_END : Nat := 5

/-! ### Dates (chrono::NaiveDate).  The year is signed (chrono's `%Y`
accepts an explicit `+`/`-` sign and `NaiveDate` supports the proleptic
Gregorian years `-262144..=262143`).  Ordering is chronological, i.e.
lexicographic on (year, month, day). -/

structure Date where
  year : Int
  month : Nat
  day : Nat
deriving DecidableEq, Repr

/-- chronological strict order on dates (chrono `Ord`, `.gt`/`.lt`). -/
def Date.ltB (a b : Date) : Bool :=
  decide (a.year < b.year) ||
    (decide (a.year = b.year) &&
      (decide (a.month < b.month) ||
        (decide (a.month = b.month) && decide (a.day < b.day))))

/-- chronological non-strict order on dates (chrono `.le`). -/
def Date.leB (a b : Date) : Bool := Date.ltB a b || decide (a = b)

def isLeap (y : Int) : Bool :=
  (decide (y % 4 = 0) && decide (y % 100 ≠ 0)) || decide (y % 400 = 0)

def daysInMonth (y : Int) (m : Nat) : Nat :=
  if m = 2 then (if isLeap y then 29 else 28)
  else if m = 4 ∨ m = 6 ∨ m = 9 ∨ m = 11 then 30
  else 31

/-- proleptic-Gregorian validity, as chrono's `NaiveDate::from_ymd_opt`
checks when `Parsed` resolves the year/month/day fields: the year inside
chrono's supported range `MIN_YEAR..=MAX_YEAR` (`i32::MIN >> 13` to
`i32::MAX >> 13`), a real month and a real day of that month. -/
def validDate (y : Int) (m d : Nat) : Bool :=
  decide (-262144 ≤ y) && decide (y ≤ 262143) &&
    decide (1 ≤ m) && decide (m ≤ 12) && decide (1 ≤ d) &&
    decide (d ≤ daysInMonth y m)

/-! ### String parsing (chrono `parse_from_str` with format `%Y-%m-%d`, and
Rust `str::parse::<u64>`) -/

def digitsToNat (ds : List Char) : Nat :=
  ds.foldl (fun a c => a * 10 + (c.toNat - 48)) 0

/-- split a greedy run of at most `maxDigits` ASCII digits off the front. -/
def splitDigits : Nat → List Char → (List Char × List Char)
  | 0, cs => ([], cs)
  | _ + 1, [] => ([], [])
  | k + 1, c :: rest =>
    if c.isDigit then
      let p := splitDigits k rest
      (c :: p.1, p.2)
    else ([], c :: rest)

/-- a numeric field of the format string: 1 to `maxDigits` digits. -/
def readNum (maxDigits : Nat) (cs : List Char) : Option (Nat × List Char) :=
  let p := splitDigits maxDigits cs
  if p.1.isEmpty then none else some (digitsToNat p.1, p.2)

/-- an unbounded digit run (chrono's `scan::number(s, 1, usize::MAX)` after
an explicit year sign); at least one digit. -/
def readNumAll (cs : List Char) : Option (Nat × List Char) :=
  let ds := cs.takeWhile Char.isDigit
  if ds.isEmpty then none else some (digitsToNat ds, cs.dropWhile Char.isDigit)

/-- Rust `char::is_whitespace` (the Unicode `White_Space` set), which
`str::trim_start` removes before each of chrono's numeric fields. -/
def isRustWhitespace (c : Char) : Bool :=
  c.toNat == 0x09 || c.toNat == 0x0A || c.toNat == 0x0B || c.toNat == 0x0C ||
    c.toNat == 0x0D || c.toNat == 0x20 || c.toNat == 0x85 || c.toNat == 0xA0 ||
    c.toNat == 0x1680 ||
    (decide (0x2000 ≤ c.toNat) && decide (c.toNat ≤ 0x200A)) ||
    c.toNat == 0x2028 || c.toNat == 0x2029 || c.toNat == 0x202F ||
    c.toNat == 0x205F || c.toNat == 0x3000

/-- chrono's `%Y` field (after the whitespace trim): an explicit `-` or `+`
sign followed by an unbounded digit run, or, with no sign, 1 to 4 digits.
(chrono's i64-overflow failure on absurdly long runs is subsumed by the
`validDate` year-range check: both yield `none` here as both yield a parse
error there.) -/
def parseYear (cs : List Char) : Option (Int × List Char) :=
  match cs with
  | '+' :: rest =>
    match readNumAll rest with
    | none => none
    | some (v, cs1) => some ((v : Int), cs1)
  | '-' :: rest =>
    match readNumAll rest with
    | none => none
    | some (v, cs1) => some (-(v : Int), cs1)
  | _ =>
    match readNum 4 cs with
    | none => none
    | some (v, cs1) => some ((v : Int), cs1)

def parseDateChars (cs : List Char) : Option Date :=
  match parseYear (cs.dropWhile isRustWhitespace) with
  | none => none
  | some (y, cs1) =>
    match cs1 with
    | '-' :: cs2 =>
      match readNum 2 (cs2.dropWhile isRustWhitespace) with
      | none => none
      | some (m, cs3) =>
        match cs3 with
        | '-' :: cs4 =>
          match readNum 2 (cs4.dropWhile isRustWhitespace) with
          | none => none
          | some (d, cs5) =>
            if cs5.isEmpty && validDate y m d then some ⟨y, m, d⟩ else none
        | _ => none
    | _ => none

/-- model of `chrono::NaiveDate::parse_from_str(s, "%Y-%m-%d")` (line 131):
leading whitespace is trimmed before each numeric field (chrono trims
before every `Numeric` item), the year may carry an explicit sign, the two
literal dashes must match exactly (no trimming before literals), the whole
string must be consumed (`TOO_LONG` otherwise), and the fields must resolve
to a valid in-range calendar date. -/
def parseDateStr (s : String) : Option Date := parseDateChars s.data

/-- model of Rust `entry.num.parse::<u64>()` (line 138): an optional leading
plus sign, then one or more ASCII digits, value below 2^64. -/
def parseU64 (s : String) : Option Nat :=
  let cs := match s.data with
    | '+' :: rest => rest
    | cs => cs
  if (!cs.isEmpty) && cs.all Char.isDigit then
    let v := digitsToNat cs
    if v < 2 ^ 64 then some v else none
  else none

/-! ### Wire data model (src/main.rs lines 57-69) -/

structure Entry where
  start_date : String
  num : String
deriving DecidableEq, Repr

structure Data where
  limit : Nat
  calendar : List Entry
deriving DecidableEq, Repr

/-! ### The filter part of `scrape` (src/main.rs lines 123-151) -/

def range_start : Date := ⟨RANGE_YEAR, RANGE_MONTH_START, RANGE_DAY_START⟩
def range_end : Date := ⟨RANGE_YEAR, RANGE_MONTH_END, RANGE_DAY_END⟩

/-- the anyhow context attached to a failed date parse (lines 132-137). -/
def dateErrMsg (e : Entry) : String :=
  "Invalid 'start_date' string from PCTA = '" ++
    (e.start_date ++ "', does not match %Y-%m-%d")

/-- the anyhow context attached to a failed count parse (lines 138-143). -/
def numErrMsg (e : Entry) : String :=
  "Invalid 'num' string from PCTA = '" ++
    (e.num ++ ("' on start_date = '" ++ (e.start_date ++ "'")))

/-- the inclusion test of line 146:
`entry_date.gt(&range_start) && entry_date.le(&range_end) && entry_num < LIMIT`,
with the range bounds and limit as parameters (they are locals/constants in
the source). -/
def includedG (rStart rEnd : Date) (lim : Nat) (p : Date × Nat) : Bool :=
  Date.ltB rStart p.1 && Date.leB p.1 rEnd && decide (p.2 < lim)

/-- the `for entry in data.calendar` loop of lines 129-149: parse each
entry's date and count, abort with the context error on the first parse
failure (`?`), and push the in-range pairs `(entry_date, entry_num)` in
input order. -/
def scrapeEntriesG (rStart rEnd : Date) (lim : Nat) :
    List Entry → Except String (List (Date × Nat))
  | [] => .ok []
  | e :: rest =>
    match parseDateStr e.start_date with
    | none => .error (dateErrMsg e)
    | some d =>
      match parseU64 e.num with
      | none => .error (numErrMsg e)
      | some n =>
        match scrapeEntriesG rStart rEnd lim rest with
        | .error msg => .error msg
        | .ok rs => .ok (if includedG rStart rEnd lim (d, n) then (d, n) :: rs else rs)

/-- the loop at the source's fixed configuration. -/
def scrapeEntries : List Entry → Except String (List (Date × Nat)) :=
  scrapeEntriesG range_start range_end LIMIT

/-- the filter applied to a deserialized `Data` value: only `data.calendar`
is read, the declared `data.limit` field is never used. -/
def filterData (data : Data) : Except String (List (Date × Nat)) :=
  scrapeEntries data.calendar

/-! ### Spec-side re-implementation used to state the filter claims -/

/-- one entry's parse, date and count together. -/
def parsedEntry (e : Entry) : Option (Date × Nat) :=
  match parseDateStr e.start_date with
  | none => none
  | some d =>
    match parseU64 e.num with
    | none => none
    | some n => some (d, n)

/-- the literal `YYYY-MM-DD` shape named by the claim's words (exactly four
ASCII digits, a dash, two digits, a dash, two digits), used only to state
the C3 counterexample: chrono's `%Y-%m-%d` parse accepts strictly more than
this. -/
def matchesYYYYMMDD (s : String) : Bool :=
  match s.data with
  | [y1, y2, y3, y4, d1, m1, m2, d2, a1, a2] =>
    y1.isDigit && y2.isDigit && y3.isDigit && y4.isDigit && d1 == '-' &&
      m1.isDigit && m2.isDigit && d2 == '-' && a1.isDigit && a2.isDigit
  | _ => false

/-- parse every entry, failing if any fails (independent of the filter). -/
def mapO : List Entry → Option (List (Date × Nat))
  | [] => some []
  | e :: rest =>
    match parsedEntry e with
    | none => none
    | some p =>
      match mapO rest with
      | none => none
      | some ps => some (p :: ps)

example : parseDateStr "2023-04-10" = some ⟨2023, 4, 10⟩ := rfl
example : parseDateStr "soon" = none := rfl
example : parseDateStr "2023-02-30" = none := rfl
example : parseDateStr "+2023-04-10" = some ⟨2023, 4, 10⟩ := rfl
example : parseDateStr " 2023-04-10" = some ⟨2023, 4, 10⟩ := rfl
example : parseDateStr "2023- 4-10" = some ⟨2023, 4, 10⟩ := rfl
example : parseDateStr "-0004-02-29" = some ⟨-4, 2, 29⟩ := rfl
example : parseDateStr "2023-04-10 " = none := rfl
example : parseDateStr "+300000-04-10" = none := rfl
example : parseDateStr "20230-04-10" = none := rfl
example : parseU64 "30" = some 30 := rfl
example : parseU64 "3x" = none := rfl
example : parseU64 " 30" = none := rfl
example : scrapeEntries [⟨"2023-04-10", "30"⟩] = .ok [(⟨2023, 4, 10⟩, 30)] := rfl
example : scrapeEntries [⟨"2023-04-10", "30"⟩, ⟨"soon", "1"⟩] =
    .error (dateErrMsg ⟨"soon", "1"⟩) := rfl

/-! ### Extraction (src/main.rs lines 100-116)

`scraper::Html::parse_document` never fails; the CSS selector and the regex
are compile-time constants whose `unwrap()`s cannot fire.  What remains is:
take the first element matching `.container > script[type='text/javascript']`
(`select(..).next()`, turned into an `anyhow` error by `.context(..)` when
there is none), then run `var data = (\{.*\});` over its inner HTML and take
the first capture group of the first match — where `.next().unwrap()` on the
captures iterator PANICS when the regex has no match.  The HTML library and
the regex engine are external capabilities: the page is modelled by the list
of matching script elements' inner HTML (in document order) and by the
capture-group-1 matches the regex produces on a given string.  `none` of the
`Option` result models the panic. -/

def selectErrMsg : String :=
  "Failed to select <script> tag in HTML document. We may be getting IP blocked or CAPTCHA"

def jsonErrMsg : String :=
  "We parsed Invalid JSON from the PCTA <script> tag, investiagate the script tag or the regex result"

/-- lines 105-113: select the first script element, then the first regex
match of its inner HTML; no script element is a context error, an empty
captures iterator is an `unwrap` panic (`none`). -/
def extractBlob (scriptTags : List String) (captures : String → List String) :
    Option (Except String String) :=
  match scriptTags with
  | [] => some (.error selectErrMsg)
  | s :: _ =>
    match captures s with
    | [] => none
    | c :: _ => some (.ok c)

/-- the whole of `scrape` after the HTTP response text is in hand, plus the
`?`-propagation of a fetch failure (lines 71-151): fetch error out as `Err`;
extraction as `extractBlob`; `serde_json::from_str::<Data>` modelled by the
external `parseData` capability, its failure replaced by the context
message; then the range filter.  `none` models a panic. -/
def scrapeStep (fetched : Except String String) (scriptsOf : String → List String)
    (captures : String → List String) (parseData : String → Option Data) :
    Option (Except String (List (Date × Nat))) :=
  match fetched with
  | .error e => some (.error e)
  | .ok text =>
    match extractBlob (scriptsOf text) captures with
    | none => none
    | some (.error e) => some (.error e)
    | some (.ok blob) =>
      match parseData blob with
      | none => some (.error jsonErrMsg)
      | some data => some (filterData data)

/-! ### Classifier (`handle_result`, src/main.rs lines 154-240)

The produced JSON value is modelled by the parts the claims speak about: the
`topic_name` of the channel and the message `body`.  All `write!`/`writeln!`
calls land in an in-memory `String` and cannot fail, so the function is
total; the `anyhow::Result` return type is kept to mirror the signature.
`LIMIT - num` is u64 subtraction, modelled with wrap-around on underflow. -/

structure Payload where
  topic_name : String
  body : String
deriving DecidableEq, Repr

/-- u64 wrapping subtraction (`a - b` in release mode). -/
def wrapSub (a b : Nat) : Nat := (a + (2 ^ 64 - b % 2 ^ 64)) % 2 ^ 64

def natPad (w n : Nat) : String :=
  ⟨List.replicate (w - (toString n).length) '0' ++ (toString n).data⟩

/-- the year part of chrono `NaiveDate`'s `Display`: zero-padded to four
digits for years 0-9999, and with an explicit sign (`{:+05}`) outside that
range. -/
def yearStr (y : Int) : String :=
  if 0 ≤ y && y ≤ 9999 then natPad 4 y.toNat
  else if y < 0 then "-" ++ natPad 4 y.natAbs
  else "+" ++ natPad 4 y.toNat

/-- chrono `NaiveDate`'s `Display`: `YYYY-MM-DD` with two-digit month and
day. -/
def Date.display (d : Date) : String :=
  yearStr d.year ++ ("-" ++ (natPad 2 d.month ++ ("-" ++ natPad 2 d.day)))

def zeroPhrase : String := "There are zero available permits in the date range"

/-- line 163-167: the logs body for an empty result. -/
def zeroBody (now : String) : String := "`" ++ (now ++ ("` @ " ++ zeroPhrase))

def openingsPhrase (k : Nat) : String :=
  "There are " ++ (toString k ++ " NEW starting dates open!")

/-- lines 185-189: the alert header with the number of open dates. -/
def alertHeader (k : Nat) : String := "@jacobyoung - *" ++ (openingsPhrase k ++ "*\n\n")

/-- line 192: one `writeln!` line per open date, showing `LIMIT - num`. -/
def lineStr (p : Date × Nat) : String :=
  "* `" ++ (p.1.display ++ ("`: " ++ (toString (wrapSub LIMIT p.2) ++ "\n")))

def datesLines : List (Date × Nat) → String
  | [] => ""
  | p :: rest => lineStr p ++ datesLines rest

/-- line 194: the scrape-time footer. -/
def alertFooter (now : String) : String := "\n`" ++ (now ++ "` - Scrape time\n")

def alertBody (l : List (Date × Nat)) (now : String) : String :=
  alertHeader l.length ++ (datesLines l ++ alertFooter now)

def errHeader : String := "Failed to scrape PCTA page with error = \n\n"
def fenceOpen : String := "```\n"
def fenceClose : String := "\n```"

/-- lines 217-220: the errors body, the description inside a fenced block. -/
def errorBody (e : String) : String :=
  errHeader ++ (fenceOpen ++ (e ++ (fenceClose ++ "\n")))

def handle_result (res : Except String (List (Date × Nat))) (now : String) :
    Except String Payload :=
  match res with
  | .ok openDates =>
    if openDates.isEmpty then .ok ⟨"pcta-logs", zeroBody now⟩
    else .ok ⟨"pcta-alerts", alertBody openDates now⟩
  | .error e => .ok ⟨"pcta-errors", errorBody e⟩

/-! ### Scheduler (`loop_scrape`, src/main.rs lines 242-344)

The interval is drawn once before the loop from `rand::random::<u64>()`,
modelled by the seed parameter `r`; each tick reads the local time of day
(modelled in whole seconds since midnight) and either skips with a logs
notification or scrapes.  The local binding `rand_interval` is immutable,
so a tick hands the unchanged interval to the next iteration. -/

/-- line 244-245: `(rand::random::<u64>() % (PERIOD_MAX + PERIOD_MIN)) +
PERIOD_MIN`, clamped into `[PERIOD_MIN, PERIOD_MAX]`. -/
def rand_interval (r : Nat) : Nat :=
  let num := r % (PERIOD_MAX + PERIOD_MIN) + PERIOD_MIN
  min (max num PERIOD_MIN) PERIOD_MAX

def businessStart : Nat := 12 * 3600
def businessEnd : Nat := 20 * 3600

/-- line 260: `now_time < start || now_time > end`. -/
def outsideWindow (t : Nat) : Bool :=
  decide (t < businessStart) || decide (t > businessEnd)

/-- lines 261-268: the skip message.  `duration` is `now_time - start`
(chrono signed seconds); `%` and `/` are Rust i64 remainder and division,
i.e. truncation toward zero (`Int.tmod` / `Int.tdiv`). -/
def skipBody (t : Nat) : String :=
  let dur : Int := (t : Int) - (businessStart : Int)
  let seconds := Int.tmod dur 60
  let minutes := Int.tmod (Int.tdiv dur 60) 60
  let hours := Int.tdiv (Int.tdiv dur 60) 60
  "Not scraping since we're before business hours 9AM - 5PM PST. Next scrape in : " ++
    (toString hours ++ ("h " ++ (toString minutes ++ ("m " ++ (toString seconds ++ "s")))))

inductive TickAction where
  | skip (payload : Payload)
  | scrape
deriving DecidableEq, Repr

/-- lines 259-297: the gate a tick applies before fetching. -/
def tick (t : Nat) : TickAction :=
  if outsideWindow t then .skip ⟨"pcta-logs", skipBody t⟩ else .scrape

structure LoopState where
  interval : Nat
deriving DecidableEq, Repr

def initLoop (r : Nat) : LoopState := ⟨rand_interval r⟩

/-- one loop iteration: the gate decision plus the state handed to the next
iteration (`rand_interval` is never rebound in the loop body). -/
def loopTick (s : LoopState) (t : Nat) : TickAction × LoopState := (tick t, s)

/-! ### Substring containment -/

/-- `needle` occurs contiguously inside `hay`. -/
def ContainsStr (hay needle : String) : Prop :=
  ∃ a b : List Char, hay.data = a ++ needle.data ++ b

theorem data_append (a b : String) : (a ++ b).data = a.data ++ b.data := by
  cases a; cases b; rfl

theorem containsStr_intro (pre s post hay : String)
    (hh : hay = pre ++ (s ++ post)) : ContainsStr hay s := by
  subst hh
  exact ⟨pre.data, post.data, by simp [data_append, List.append_assoc]⟩

theorem containsStr_close (pre s hay : String)
    (hh : hay = pre ++ s) : ContainsStr hay s := by
  subst hh
  exact ⟨pre.data, [], by simp [data_append]⟩

theorem containsStr_mono_left (x : String) {hay needle : String}
    (h : ContainsStr hay needle) : ContainsStr (x ++ hay) needle := by
  obtain ⟨a, b, e⟩ := h
  exact ⟨x.data ++ a, b, by simp [data_append, e, List.append_assoc]⟩

theorem containsStr_mono_right (x : String) {hay needle : String}
    (h : ContainsStr hay needle) : ContainsStr (hay ++ x) needle := by
  obtain ⟨a, b, e⟩ := h
  exact ⟨a, b ++ x.data, by simp [data_append, e, List.append_assoc]⟩

example : handle_result (.ok []) "T" = .ok ⟨"pcta-logs", zeroBody "T"⟩ := rfl
example : (zeroBody "T") = "`T` @ There are zero available permits in the date range" := rfl
example : alertBody [(⟨2023, 4, 10⟩, 30)] "T" =
    "@jacobyoung - *There are 1 NEW starting dates open!*\n\n* `2023-04-10`: 20\n\n`T` - Scrape time\n" := rfl
example : errorBody "boom" =
    "Failed to scrape PCTA page with error = \n\n```\nboom\n```\n" := rfl
example : skipBody 43140 =
    "Not scraping since we're before business hours 9AM - 5PM PST. Next scrape in : 0h -1m 0s" := rfl
example : tick 43200 = .scrape := rfl
example : tick 72000 = .scrape := rfl
example : rand_interval 16 = 40 := rfl
example : rand_interval 63 = 40 := rfl
example : rand_interval 1 = 25 := rfl

/-! ### Helper lemmas about the filter -/

theorem scrapeEntriesG_ok (rStart rEnd : Date) (lim : Nat) :
    ∀ (cal : List Entry) (res : List (Date × Nat)),
      scrapeEntriesG rStart rEnd lim cal = .ok res →
      ∃ parsed, mapO cal = some parsed ∧
        res = parsed.filter (includedG rStart rEnd lim) := by
  intro cal
  induction cal with
  | nil =>
    intro res h
    simp only [scrapeEntriesG, Except.ok.injEq] at h
    exact ⟨[], rfl, by simp [← h]⟩
  | cons e t ih =>
    intro res h
    cases hd : parseDateStr e.start_date with
    | none => simp [scrapeEntriesG, hd] at h
    | some d =>
      cases hn : parseU64 e.num with
      | none => simp [scrapeEntriesG, hd, hn] at h
      | some n =>
        cases hr : scrapeEntriesG rStart rEnd lim t with
        | error m => simp [scrapeEntriesG, hd, hn, hr] at h
        | ok rs =>
          simp only [scrapeEntriesG, hd, hn, hr, Except.ok.injEq] at h
          obtain ⟨parsed, hm, hf⟩ := ih rs hr
          refine ⟨(d, n) :: parsed, ?_, ?_⟩
          · simp [mapO, parsedEntry, hd, hn, hm]
          · cases hc : includedG rStart rEnd lim (d, n) with
            | false => simp [hc] at h; simp [List.filter_cons, hc, ← h, hf]
            | true => simp [hc] at h; simp [List.filter_cons, hc, ← h, hf]

theorem mapO_mem :
    ∀ (cal : List Entry) (parsed : List (Date × Nat)),
      mapO cal = some parsed →
      ∀ p ∈ parsed, ∃ e, e ∈ cal ∧ parsedEntry e = some p := by
  intro cal
  induction cal with
  | nil =>
    intro parsed h p hp
    simp only [mapO, Option.some.injEq] at h
    subst h
    simp at hp
  | cons e t ih =>
    intro parsed h p hp
    cases he : parsedEntry e with
    | none => simp [mapO, he] at h
    | some q =>
      cases ht : mapO t with
      | none => simp [mapO, he, ht] at h
      | some ps =>
        simp only [mapO, he, ht, Option.some.injEq] at h
        subst h
        rcases List.mem_cons.mp hp with rfl | hp2
        · exact ⟨e, List.mem_cons_self e t, he⟩
        · obtain ⟨e2, he2, hpe⟩ := ih ps ht p hp2
          exact ⟨e2, List.mem_cons_of_mem e he2, hpe⟩

theorem includedG_lt {rStart rEnd : Date} {lim : Nat} {p : Date × Nat}
    (h : includedG rStart rEnd lim p = true) : p.2 < lim := by
  simp only [includedG, Bool.and_eq_true, decide_eq_true_eq] at h
  exact h.2

theorem wrapSub_eq (n : Nat) (h : n < LIMIT) : wrapSub LIMIT n = LIMIT - n := by
  unfold wrapSub LIMIT at *
  have e : (2 : Nat) ^ 64 = 18446744073709551616 := by norm_num
  rw [e]
  omega

/-! ### Helper lemmas about the notification bodies -/

theorem mem_datesLines (l : List (Date × Nat)) (p : Date × Nat) (hp : p ∈ l) :
    ContainsStr (datesLines l) (lineStr p) := by
  induction l with
  | nil => simp at hp
  | cons q t ih =>
    rcases List.mem_cons.mp hp with rfl | hp2
    · exact ⟨[], (datesLines t).data, by simp [datesLines, data_append]⟩
    · exact containsStr_mono_left (lineStr q) (ih hp2)

theorem alertBody_contains_line (l : List (Date × Nat)) (now : String)
    (p : Date × Nat) (hp : p ∈ l) : ContainsStr (alertBody l now) (lineStr p) :=
  containsStr_mono_left (alertHeader l.length)
    (containsStr_mono_right (alertFooter now) (mem_datesLines l p hp))

theorem alertBody_contains_openings (l : List (Date × Nat)) (now : String) :
    ContainsStr (alertBody l now) (openingsPhrase l.length) :=
  containsStr_mono_right (datesLines l ++ alertFooter now)
    (containsStr_intro "@jacobyoung - *" (openingsPhrase l.length) "*\n\n" _ rfl)

theorem alertBody_contains_now (l : List (Date × Nat)) (now : String) :
    ContainsStr (alertBody l now) now :=
  containsStr_mono_left (alertHeader l.length)
    (containsStr_mono_left (datesLines l)
      (containsStr_intro "\n`" now "` - Scrape time\n" _ rfl))

theorem zeroBody_contains_now (now : String) : ContainsStr (zeroBody now) now :=
  containsStr_intro "`" now ("` @ " ++ zeroPhrase) _ rfl

theorem zeroBody_contains_phrase (now : String) :
    ContainsStr (zeroBody now) zeroPhrase :=
  containsStr_mono_left "`"
    (containsStr_mono_left now (containsStr_close "` @ " zeroPhrase _ rfl))

theorem errorBody_contains_fenced (e : String) :
    ContainsStr (errorBody e) (fenceOpen ++ (e ++ fenceClose)) :=
  ⟨errHeader.data, "\n".data, by
    simp [errorBody, errHeader, fenceOpen, fenceClose, data_append, List.append_assoc]⟩

theorem parsedEntry_eq_some {e : Entry} {p : Date × Nat}
    (h : parsedEntry e = some p) :
    parseDateStr e.start_date = some p.1 ∧ parseU64 e.num = some p.2 := by
  cases hd : parseDateStr e.start_date with
  | none => simp [parsedEntry, hd] at h
  | some d =>
    cases hn : parseU64 e.num with
    | none => simp [parsedEntry, hd, hn] at h
    | some n =>
      simp only [parsedEntry, hd, hn, Option.some.injEq] at h
      cases h
      exact ⟨rfl, rfl⟩

/-! ### The claims -/

/-- C1: for every range, limit and calendar, when the filter succeeds its
output is exactly the entries whose parsed date `d` and count `n` satisfy
`range.start < d ≤ range.end` and `n < limit` (the `includedG` predicate of
line 146), in the order they appeared in the calendar: it equals the
independent parse-everything-then-`List.filter` of the same calendar, which
preserves input order and does no re-sorting. -/
theorem scrape_filter_exactly_in_range (rStart rEnd : Date) (lim : Nat)
    (cal : List Entry) (res : List (Date × Nat))
    (h : scrapeEntriesG rStart rEnd lim cal = .ok res) :
    ∃ parsed, mapO cal = some parsed ∧
      res = parsed.filter (includedG rStart rEnd lim) :=
  scrapeEntriesG_ok rStart rEnd lim cal res h

theorem scrape_filter_exactly_in_range_witness :
    scrapeEntriesG range_start range_end LIMIT
        [⟨"2023-04-02", "10"⟩, ⟨"2023-03-01", "10"⟩, ⟨"2023-04-03", "60"⟩] =
      .ok [(⟨2023, 4, 2⟩, 10)] ∧
    ∃ parsed,
      mapO [⟨"2023-04-02", "10"⟩, ⟨"2023-03-01", "10"⟩, ⟨"2023-04-03", "60"⟩] =
        some parsed ∧
      [((⟨2023, 4, 2⟩ : Date), 10)] =
        parsed.filter (includedG range_start range_end LIMIT) :=
  ⟨rfl, scrape_filter_exactly_in_range range_start range_end LIMIT _ _ rfl⟩

/-- C2 counterexample: on the spec's own end-to-end example (one in-range
entry with count 30, limit 50) the filter returns the pair
`("2023-04-10", 30)` — the raw count — and not `("2023-04-10", 20)` as the
claim states: the subtraction `LIMIT - count` happens only in
`handle_result`, not in the filter. -/
theorem scrape_result_pair_is_raw_count :
    scrapeEntries [⟨"2023-04-10", "30"⟩] = .ok [(⟨2023, 4, 10⟩, 30)] ∧
    scrapeEntries [⟨"2023-04-10", "30"⟩] ≠ .ok [(⟨2023, 4, 10⟩, 20)] := by
  refine ⟨rfl, fun h => ?_⟩
  have h1 : scrapeEntries [⟨"2023-04-10", "30"⟩] = .ok [(⟨2023, 4, 10⟩, 30)] := rfl
  have h2 : ([((⟨2023, 4, 10⟩ : Date), 30)] : List (Date × Nat)) =
      [(⟨2023, 4, 10⟩, 20)] := Except.ok.inj (h1.symm.trans h)
  simp at h2

/-- C2 amended: each pair the filter emits is `(date, count)` with `count`
the entry's parsed `num` (and `count < LIMIT`); the remaining capacity
`LIMIT - count` is computed by the classifier, whose alert body shows
`LIMIT - count` for every emitted pair — so for the example page the filter
yields `[("2023-04-10", 30)]` and the alert body contains
`2023-04-10`: 20. -/
theorem scrape_pairs_raw_count_alert_shows_remaining
    (cal : List Entry) (res : List (Date × Nat))
    (h : scrapeEntries cal = .ok res) :
    (∀ p ∈ res,
      (∃ e, e ∈ cal ∧ parseDateStr e.start_date = some p.1 ∧
        parseU64 e.num = some p.2) ∧ p.2 < LIMIT) ∧
    (∀ now, res ≠ [] →
      handle_result (.ok res) now = .ok ⟨"pcta-alerts", alertBody res now⟩) ∧
    (∀ now, ∀ p ∈ res, ContainsStr (alertBody res now)
      ("* `" ++ (p.1.display ++ ("`: " ++ (toString (LIMIT - p.2) ++ "\n"))))) := by
  obtain ⟨parsed, hm, hf⟩ := scrapeEntriesG_ok range_start range_end LIMIT cal res h
  have hmemP : ∀ p ∈ res, p ∈ parsed ∧
      includedG range_start range_end LIMIT p = true := by
    intro p hp
    rw [hf] at hp
    exact List.mem_filter.mp hp
  refine ⟨?_, ?_, ?_⟩
  · intro p hp
    obtain ⟨hpp, hinc⟩ := hmemP p hp
    obtain ⟨e, he, hpe⟩ := mapO_mem cal parsed hm p hpp
    obtain ⟨hd, hn⟩ := parsedEntry_eq_some hpe
    exact ⟨⟨e, he, hd, hn⟩, includedG_lt hinc⟩
  · intro now hne
    cases res with
    | nil => exact absurd rfl hne
    | cons q ql => rfl
  · intro now p hp
    have hlt : p.2 < LIMIT := includedG_lt (hmemP p hp).2
    have hline := alertBody_contains_line res now p hp
    simpa [lineStr, wrapSub_eq p.2 hlt] using hline

theorem scrape_pairs_raw_count_alert_shows_remaining_witness :
    scrapeEntries [⟨"2023-04-10", "30"⟩] = .ok [(⟨2023, 4, 10⟩, 30)] ∧
    (∀ now, ∀ p ∈ ([((⟨2023, 4, 10⟩ : Date), 30)] : List (Date × Nat)),
      ContainsStr (alertBody [(⟨2023, 4, 10⟩, 30)] now)
        ("* `" ++ (p.1.display ++ ("`: " ++ (toString (LIMIT - p.2) ++ "\n"))))) :=
  ⟨rfl, (scrape_pairs_raw_count_alert_shows_remaining
    [⟨"2023-04-10", "30"⟩] [(⟨2023, 4, 10⟩, 30)] rfl).2.2⟩

/-- C3 counterexample: the date string "+2023-04-10" does not match the
claim's literal `YYYY-MM-DD` shape, yet chrono's `%Y-%m-%d` parse accepts
it (a signed year is allowed), so the filter succeeds — no ParseError —
refuting the claim as stated; likewise for the leading-whitespace form
" 2023-04-10". -/
theorem nonstrict_date_still_parses :
    matchesYYYYMMDD "+2023-04-10" = false ∧
    parseDateStr "+2023-04-10" = some ⟨2023, 4, 10⟩ ∧
    scrapeEntries [⟨"+2023-04-10", "30"⟩] = .ok [(⟨2023, 4, 10⟩, 30)] ∧
    matchesYYYYMMDD " 2023-04-10" = false ∧
    parseDateStr " 2023-04-10" = some ⟨2023, 4, 10⟩ :=
  ⟨rfl, rfl, rfl, rfl, rfl⟩

/-- C3 amended: whatever the range and limit, if any entry of the calendar
has a date string that the `%Y-%m-%d` parse rejects (chrono's parser, which
is more lenient than the literal `YYYY-MM-DD` shape: it trims leading
whitespace before each numeric field and accepts a signed year) or a count
string that u64 parsing rejects, the filter loop returns an `Except.error`
whose message contains that entry's `start_date` string (the anyhow
context naming the offending entry), and returns no partial results — the
range predicate of the other entries is irrelevant. -/
theorem scrape_parse_failure_aborts (rStart rEnd : Date) (lim : Nat) :
    ∀ cal : List Entry,
      (∃ e ∈ cal, parseDateStr e.start_date = none ∨ parseU64 e.num = none) →
      ∃ e msg, e ∈ cal ∧
        (parseDateStr e.start_date = none ∨ parseU64 e.num = none) ∧
        scrapeEntriesG rStart rEnd lim cal = .error msg ∧
        ContainsStr msg e.start_date := by
  intro cal
  induction cal with
  | nil => intro h; simp at h
  | cons e0 t ih =>
    intro h
    cases hd : parseDateStr e0.start_date with
    | none =>
      refine ⟨e0, dateErrMsg e0, List.mem_cons_self e0 t, Or.inl hd, ?_, ?_⟩
      · simp [scrapeEntriesG, hd]
      · exact containsStr_intro "Invalid 'start_date' string from PCTA = '"
          e0.start_date "', does not match %Y-%m-%d" _ rfl
    | some d =>
      cases hn : parseU64 e0.num with
      | none =>
        refine ⟨e0, numErrMsg e0, List.mem_cons_self e0 t, Or.inr hn, ?_, ?_⟩
        · simp [scrapeEntriesG, hd, hn]
        · exact containsStr_mono_left "Invalid 'num' string from PCTA = '"
            (containsStr_mono_left e0.num
              (containsStr_intro "' on start_date = '" e0.start_date "'" _ rfl))
      | some n =>
        obtain ⟨e1, he1, hbad⟩ := h
        rcases List.mem_cons.mp he1 with rfl | he1t
        · rcases hbad with hb | hb
          · rw [hd] at hb; exact Option.noConfusion hb
          · rw [hn] at hb; exact Option.noConfusion hb
        · obtain ⟨e2, msg, he2, hbad2, herr, hcont⟩ := ih ⟨e1, he1t, hbad⟩
          refine ⟨e2, msg, List.mem_cons_of_mem e0 he2, hbad2, ?_, hcont⟩
          simp [scrapeEntriesG, hd, hn, herr]

theorem scrape_parse_failure_aborts_witness :
    ∃ e msg, e ∈ ([⟨"2023-04-10", "30"⟩, ⟨"soon", "30"⟩] : List Entry) ∧
      (parseDateStr e.start_date = none ∨ parseU64 e.num = none) ∧
      scrapeEntriesG range_start range_end LIMIT
        [⟨"2023-04-10", "30"⟩, ⟨"soon", "30"⟩] = .error msg ∧
      ContainsStr msg e.start_date :=
  scrape_parse_failure_aborts range_start range_end LIMIT
    [⟨"2023-04-10", "30"⟩, ⟨"soon", "30"⟩]
    ⟨⟨"soon", "30"⟩, by decide, Or.inl rfl⟩

/-- C4: fetch failures, a missing script element and serde parse failures
are indeed captured as error values (`some (.error ..)`), but when the
script element is present and the regex `var data = ({...});` finds no
match, the `.next().unwrap()` on the captures iterator (line 111) PANICS
(modelled by `none`) instead of producing a captured failure — so the
scrape step is not total as an error-returning function and the panic
escapes the polling loop.  The first conjunct evaluates the step at such a
failing page; the rest shows the error paths the claim describes correctly
for fetch, selection and JSON parse failures. -/
theorem scrape_step_regex_miss_crashes :
    scrapeStep (.ok "page") (fun _ => ["var x = 1;"]) (fun _ => [])
      (fun _ => none) = none ∧
    scrapeStep (.error "connection reset") (fun _ => []) (fun _ => [])
      (fun _ => none) = some (.error "connection reset") ∧
    scrapeStep (.ok "page") (fun _ => []) (fun _ => [])
      (fun _ => none) = some (.error selectErrMsg) ∧
    scrapeStep (.ok "page") (fun _ => ["s"]) (fun _ => ["notjson"])
      (fun _ => none) = some (.error jsonErrMsg) :=
  ⟨rfl, rfl, rfl, rfl⟩

/-- C5: the classifier maps an empty success to the `pcta-logs` topic with a
body containing the timestamp and the zero-permits phrase; a non-empty
success (with the counts below the limit, as every real scrape result has)
to the `pcta-alerts` topic with a body containing, for every result pair,
the line showing the date and `LIMIT - count`, the number-of-openings
phrase and the timestamp; and a failure to the `pcta-errors` topic with the
description verbatim inside the fenced block. -/
theorem handle_result_classification (t : String) (l : List (Date × Nat))
    (hne : l ≠ []) (hlt : ∀ p ∈ l, p.2 < LIMIT) :
    (handle_result (.ok []) t = .ok ⟨"pcta-logs", zeroBody t⟩ ∧
      ContainsStr (zeroBody t) t ∧ ContainsStr (zeroBody t) zeroPhrase) ∧
    (handle_result (.ok l) t = .ok ⟨"pcta-alerts", alertBody l t⟩ ∧
      (∀ p ∈ l, ContainsStr (alertBody l t)
        ("* `" ++ (p.1.display ++ ("`: " ++ (toString (LIMIT - p.2) ++ "\n"))))) ∧
      ContainsStr (alertBody l t) (openingsPhrase l.length) ∧
      ContainsStr (alertBody l t) t) ∧
    (∀ d : String, handle_result (.error d) t = .ok ⟨"pcta-errors", errorBody d⟩ ∧
      ContainsStr (errorBody d) (fenceOpen ++ (d ++ fenceClose))) := by
  refine ⟨⟨rfl, zeroBody_contains_now t, zeroBody_contains_phrase t⟩,
    ⟨?_, ?_, alertBody_contains_openings l t, alertBody_contains_now l t⟩,
    fun d => ⟨rfl, errorBody_contains_fenced d⟩⟩
  · cases l with
    | nil => exact absurd rfl hne
    | cons q ql => rfl
  · intro p hp
    have hline := alertBody_contains_line l t p hp
    simpa [lineStr, wrapSub_eq p.2 (hlt p hp)] using hline

theorem handle_result_classification_witness :
    ([((⟨2023, 4, 10⟩ : Date), 30)] : List (Date × Nat)) ≠ [] ∧
    (∀ p ∈ ([((⟨2023, 4, 10⟩ : Date), 30)] : List (Date × Nat)), p.2 < LIMIT) ∧
    handle_result (.ok [(⟨2023, 4, 10⟩, 30)]) "TS" =
      .ok ⟨"pcta-alerts", alertBody [(⟨2023, 4, 10⟩, 30)] "TS"⟩ :=
  ⟨by decide, by decide,
    (handle_result_classification "TS" [(⟨2023, 4, 10⟩, 30)]
      (by decide) (by decide)).2.1.1⟩

/-- C6 counterexample: with a script region in which the regex produces two
matches, extraction still succeeds (using the first capture) — so
"extraction succeeds only when exactly one match is found" is false: more
than one match is not an extraction error. -/
theorem extract_two_matches_still_succeeds :
    extractBlob ["s"] (fun _ => ["blobA", "blobB"]) = some (.ok "blobA") ∧
    ((fun _ : String => ["blobA", "blobB"]) "s").length = 2 :=
  ⟨rfl, rfl⟩

/-- C6 amended: extraction fails with the selection error (distinguishable
from a parse error) exactly when no script element matches the selector;
when the first matching script element's regex match list is empty the
program panics (`none`, the `unwrap` of line 111) instead of returning an
extraction error; and whenever at least one match exists the first capture
is used, with no exactly-one check. -/
theorem extract_first_match_only (scriptTags : List String)
    (captures : String → List String) :
    (scriptTags = [] → extractBlob scriptTags captures = some (.error selectErrMsg)) ∧
    (∀ s rest, scriptTags = s :: rest → captures s = [] →
      extractBlob scriptTags captures = none) ∧
    (∀ s rest c cs, scriptTags = s :: rest → captures s = c :: cs →
      extractBlob scriptTags captures = some (.ok c)) := by
  refine ⟨?_, ?_, ?_⟩
  · rintro rfl; rfl
  · rintro s rest rfl hc; simp [extractBlob, hc]
  · rintro s rest c cs rfl hc; simp [extractBlob, hc]

theorem extract_first_match_only_witness :
    (["x"] : List String) = "x" :: [] ∧
    ((fun _ : String => ([] : List String)) "x") = [] ∧
    extractBlob ["x"] (fun _ => []) = none :=
  ⟨rfl, rfl, (extract_first_match_only ["x"] (fun _ => [])).2.1 "x" [] rfl rfl⟩

/-- C7: at 11:59:00 the tick does skip and emits only the logs-topic
payload, and the window is inclusive at both 12:00:00 and 20:00:00 — but
the skip body does not describe the remaining wait: the true wait is 60
seconds ("0h 1m 0s"), while the body, computed from `now_time - start`
(line 261), reads "0h -1m 0s" under its own "Next scrape in" label. -/
theorem business_hours_gate_bug :
    tick 43140 = .skip ⟨"pcta-logs", skipBody 43140⟩ ∧
    skipBody 43140 =
      "Not scraping since we're before business hours 9AM - 5PM PST. Next scrape in : 0h -1m 0s" ∧
    businessStart - 43140 = 60 ∧
    skipBody 43140 ≠
      "Not scraping since we're before business hours 9AM - 5PM PST. Next scrape in : 0h 1m 0s" ∧
    tick 43200 = .scrape ∧
    tick 72000 = .scrape ∧
    outsideWindow 43199 = true ∧
    outsideWindow 72001 = true := by
  refine ⟨rfl, rfl, rfl, ?_, rfl, rfl, rfl, rfl⟩
  decide

/-- C8 counterexample: the draw `min (max (r % 64 + 24) 24) 40` is not
uniform on `[24, 40]`: of the 64 residues of the random u64 that alone
determine the result, 48 map to the interval value 40 and only 1 maps to
25, so 40 is 48 times as likely as 25 under a uniform `rand::random::<u64>()`. -/
theorem rand_interval_not_uniform :
    ((List.range 64).filter (fun r => decide (rand_interval r = 40))).length = 48 ∧
    ((List.range 64).filter (fun r => decide (rand_interval r = 25))).length = 1 ∧
    rand_interval 16 = 40 ∧ rand_interval 1 = 25 ∧ (48 : Nat) ≠ 1 := by
  decide

/-- C8 amended: the interval drawn at loop start always lies inside
`[PERIOD_MIN, PERIOD_MAX]` (no value outside is possible), the draw depends
only on the seed's residue modulo `PERIOD_MAX + PERIOD_MIN = 64` (but is
not uniform, see the counterexample), and the single drawn value is fixed:
a loop tick returns its state — hence the interval — unchanged. -/
theorem rand_interval_in_bounds_and_fixed :
    (∀ r : Nat, PERIOD_MIN ≤ rand_interval r ∧ rand_interval r ≤ PERIOD_MAX) ∧
    (∀ r : Nat, rand_interval r = rand_interval (r % (PERIOD_MAX + PERIOD_MIN))) ∧
    (∀ (s : LoopState) (t : Nat), (loopTick s t).2 = s) := by
  refine ⟨?_, ?_, fun s t => rfl⟩
  · intro r
    have hshow : rand_interval r = min (max (r % 64 + 24) 24) 40 := rfl
    rw [hshow]
    constructor
    · show 24 ≤ min (max (r % 64 + 24) 24) 40
      omega
    · show min (max (r % 64 + 24) 24) 40 ≤ 40
      omega
  · intro r
    have h1 : rand_interval r = min (max (r % 64 + 24) 24) 40 := rfl
    have h2 : rand_interval (r % (PERIOD_MAX + PERIOD_MIN)) =
        min (max (r % 64 % 64 + 24) 24) 40 := rfl
    rw [h1, h2]
    omega

/-- C9: the filter never reads the calendar's declared `limit` field — two
`Data` values identical except for that field filter identically. -/
theorem filter_ignores_declared_limit (l1 l2 : Nat) (cal : List Entry) :
    filterData ⟨l1, cal⟩ = filterData ⟨l2, cal⟩ := rfl

/-- C10: payload construction is total — for every scrape outcome (success
with any result list, or failure with any description) and every timestamp,
`handle_result` returns `Ok` with a payload: all formatting lands in an
in-memory string, so the `anyhow` error branch is unreachable. -/
theorem handle_result_total (res : Except String (List (Date × Nat)))
    (now : String) : ∃ p : Payload, handle_result res now = .ok p := by
  cases res with
  | error e => exact ⟨_, rfl⟩
  | ok l =>
    cases l with
    | nil => exact ⟨_, rfl⟩
    | cons q t => exact ⟨_, rfl⟩

end PCTA
